import Mathlib

/-!
Verification of the frame-sampling, geometry-clamping and score-aggregation
pipeline of the deepfake-detection service, a shallow embedding of the
function `predict_on_video` in `app.py`.

The external collaborators (video decoder, face localizer, classifier) are
modelled as oracles carried by the input: a `VideoModel` records whether the
capture opens, the reported frame count, and the frames the source will
yield; each `Frame` records the outcome of the face-detection call on it,
and each detected box carries the outcome of classifying its crop.  Python
exceptions are modelled by `Except` values: any call made inside the
per-frame `try` block may produce a `PyErr`, and the `except Exception`
handler of the source catches every one of them.  Scores are rationals.
-/

namespace Deepfake

/-- An exception raised by a call made inside the per-frame processing
block (face detection, crop handling, classification).  `unexpected`
stands for any exception that is neither a face-detection nor a
classification failure. -/
inductive PyErr where
  | faceDetectionError
  | classificationError
  | unexpected
deriving DecidableEq, Repr

/-- An error with which the whole analysis can terminate.  `uncaught e`
would be a per-frame exception escaping the analysis; the embedding shows
it is never produced. -/
inductive AnalyzeErr where
  | cannotOpenVideo
  | uncaught (e : PyErr)
deriving DecidableEq, Repr

deriving instance DecidableEq for Except

/-- A bounding box `(x1, y1, x2, y2)` in frame pixel coordinates, after the
`map(int, box)` conversion of the source. -/
structure Box where
  x1 : ℤ
  y1 : ℤ
  x2 : ℤ
  y2 : ℤ
deriving DecidableEq, Repr

/-- A box returned by the localizer together with the outcome the
classifier would produce on its (non-degenerate) crop. -/
structure BoxSpec where
  box : Box
  cls : Except PyErr ℚ
deriving DecidableEq

/-- A frame the video source yields: its pixel dimensions and the outcome
of `mtcnn.detect` on it (`none` models `boxes is None`). -/
structure Frame where
  width : ℤ
  height : ℤ
  detect : Except PyErr (Option (List BoxSpec))
deriving DecidableEq

/-- The behaviour of one video file: whether `cap.isOpened()` holds, the
reported `CAP_PROP_FRAME_COUNT`, and the frames `cap.read()` will yield in
decode order before signalling end-of-stream. -/
structure VideoModel where
  opens : Bool
  frameCount : ℤ
  frames : List Frame
deriving DecidableEq

/-- `x1, y1 = max(0, x1), max(0, y1); x2, y2 = min(w, x2), min(h, y2)`
(lines 132-134 of `app.py`). -/
def clampBox (w h : ℤ) (b : Box) : Box :=
  ⟨max 0 b.x1, max 0 b.y1, min w b.x2, min h b.y2⟩

/-- Length of the Python slice `a:b` on an axis of length `n` (step 1),
following the CPython adjustment: a negative index wraps by `+ n` before
being clamped to `[0, n]`, a nonnegative one is clamped to `[0, n]`, and
the extent is `max 0 (stop - start)`.  Slicing never fails. -/
def sliceLen (n a b : ℤ) : ℤ :=
  let start := if a < 0 then max 0 (a + n) else min a n
  let stop := if b < 0 then max 0 (b + n) else min b n
  max 0 (stop - start)

/-- Number of pixels of the numpy slice `frame[y1:y2, x1:x2]` on a frame
of width `w` and height `h` (the constant positive channel factor is
dropped).  Note the wrap: a negative `x2` or `y2` addresses from the
right or bottom edge. -/
def cropSize (w h : ℤ) (b : Box) : ℤ :=
  sliceLen w b.x1 b.x2 * sliceLen h b.y1 b.y2

/-- Processing of one detected box (lines 128-145): clamp, drop a
zero-size crop silently, otherwise classify.  `ok none` is a silent skip;
an `error` models the exception leaving the `for` loop over boxes. -/
def processBox (w h : ℤ) (bs : BoxSpec) : Except PyErr (Option ℚ) :=
  if cropSize w h (clampBox w h bs.box) = 0 then .ok none
  else bs.cls.map some

/-- Scores appended while iterating over the boxes of one frame.  A
classification exception aborts the iteration: scores appended by earlier
boxes of the frame are kept, later boxes are never reached. -/
def boxesScores (w h : ℤ) : List BoxSpec → List ℚ
  | [] => []
  | bs :: rest =>
    match processBox w h bs with
    | .ok none => boxesScores w h rest
    | .ok (some s) => s :: boxesScores w h rest
    | .error _ => []

/-- Scores one frame contributes (lines 122-149).  The `except Exception`
handler catches every `PyErr`, so a detection failure — of any kind —
makes the frame contribute nothing and processing continue. -/
def frameScores (f : Frame) : List ℚ :=
  match f.detect with
  | .error _ => []
  | .ok none => []
  | .ok (some boxes) => boxesScores f.width f.height boxes

/-- The frames successfully read by
`while idx < frames_to_process: ret, frame = cap.read(); if not ret: break`
given a budget of `n` iterations: the loop both counts down the budget and
stops at end-of-stream. -/
def readFrames : List Frame → ℕ → List Frame
  | _, 0 => []
  | [], _ + 1 => []
  | f :: rest, n + 1 => f :: readFrames rest n

/-- `frames_to_process = min(max_frames, frame_count)` (line 109). -/
def framesToProcess (v : VideoModel) (maxFrames : ℤ) : ℤ :=
  min maxFrames v.frameCount

/-- The frames the sampling loop processes, in order. -/
def processedFrames (v : VideoModel) (maxFrames : ℤ) : List Frame :=
  readFrames v.frames (framesToProcess v maxFrames).toNat

/-- The `predictions` list at the end of the sampling loop. -/
def collectedScores (v : VideoModel) (maxFrames : ℤ) : List ℚ :=
  (processedFrames v maxFrames).flatMap frameScores

/-- Verdict label. -/
inductive Label where
  | FAKE
  | REAL
deriving DecidableEq, Repr

/-- Outcome of aggregation: no score was ever produced, or a labelled
verdict with a confidence percentage. -/
inductive AggregateResult where
  | noEvidence
  | verdict (label : Label) (confidencePercent : ℚ)
deriving DecidableEq, Repr

/-- `np.mean` of the collected scores. -/
def mean (l : List ℚ) : ℚ := l.sum / l.length

/-- Lines 153-163: empty score list gives the no-face outcome; otherwise
with `avg = mean scores` and `confidence = avg * 100`, strict `avg > 0.5`
gives FAKE with `confidence`, else REAL with `100 - confidence`. -/
def aggregate (scores : List ℚ) : AggregateResult :=
  if scores = [] then .noEvidence
  else if 1 / 2 < mean scores then .verdict .FAKE (mean scores * 100)
  else .verdict .REAL (100 - mean scores * 100)

/-- The sentinel returned when no face was detected (line 154). -/
def noFaceSentinel : String := "⚠️ No face detected in video."

/-- Rendering of the three outcomes as the strings of lines 154, 161 and
163, parameterised by the `:.2f` percentage formatter. -/
def formatResult (fmt : ℚ → String) : AggregateResult → String
  | .noEvidence => noFaceSentinel
  | .verdict .FAKE c => "Video is " ++ fmt c ++ "% likely to be a FAKE."
  | .verdict .REAL c => "Video is " ++ fmt c ++ "% likely to be REAL."

/-- Resource events of one invocation: the capture becoming open, a frame
being read from it, and `cap.release()`. -/
inductive Ev where
  | openedHandle
  | readFrame
  | releasedHandle
deriving DecidableEq, Repr

/-- One full run of `predict_on_video` (lines 104-163): the outcome
together with the trace of resource events.  If the capture does not open,
the function raises before any frame is read; otherwise the loop runs — no
exception can escape it, since the source wraps all fallible per-frame
work in the `try` block — `cap.release()` is reached (line 151), and the
collected scores are aggregated. -/
def predictRun (v : VideoModel) (maxFrames : ℤ) :
    Except AnalyzeErr AggregateResult × List Ev :=
  if v.opens then
    (.ok (aggregate (collectedScores v maxFrames)),
      .openedHandle ::
        ((processedFrames v maxFrames).map (fun _ => Ev.readFrame) ++
          [Ev.releasedHandle]))
  else (.error .cannotOpenVideo, [])

/-- The outcome of the analysis, at the level of `AggregateResult`. -/
def runAnalysis (v : VideoModel) (maxFrames : ℤ) :
    Except AnalyzeErr AggregateResult :=
  (predictRun v maxFrames).1

/-- The resource-event trace of the analysis. -/
def runEvents (v : VideoModel) (maxFrames : ℤ) : List Ev :=
  (predictRun v maxFrames).2

/-- `predict_on_video` proper: the result string (or error), given the
percentage formatter. -/
def predict_on_video (fmt : ℚ → String) (v : VideoModel) (maxFrames : ℤ) :
    Except AnalyzeErr String :=
  (runAnalysis v maxFrames).map (formatResult fmt)

/-- A frame on which detection succeeds and finds no face. -/
def noDetectFrame : Frame := ⟨640, 480, .ok none⟩

/-- A three-frame video whose reported count matches its real length. -/
def sampleVideo : VideoModel :=
  ⟨true, 3, [noDetectFrame, noDetectFrame, noDetectFrame]⟩

/-- A trivial stand-in for the `:.2f` formatter. -/
def fmt0 : ℚ → String := fun _ => "0.00"

/-! ## Basic lemmas -/

theorem readFrames_eq_take (fs : List Frame) (n : ℕ) :
    readFrames fs n = fs.take n := by
  induction fs generalizing n with
  | nil => cases n <;> rfl
  | cons f rest ih => cases n with
    | zero => rfl
    | succ m => simp [readFrames, ih]

theorem mean_nonneg (l : List ℚ) (h : ∀ s ∈ l, 0 ≤ s) : 0 ≤ mean l := by
  have hsum : 0 ≤ l.sum := List.sum_nonneg h
  have hlen : (0 : ℚ) ≤ (l.length : ℚ) := by positivity
  exact div_nonneg hsum hlen

theorem mean_le_one (l : List ℚ) (hne : l ≠ []) (h : ∀ s ∈ l, s ≤ 1) :
    mean l ≤ 1 := by
  have hlen : (0 : ℚ) < (l.length : ℚ) := by
    have : l.length ≠ 0 := by simpa [List.length_eq_zero] using hne
    exact_mod_cast Nat.pos_of_ne_zero this
  have hsum : l.sum ≤ (l.length : ℚ) := by
    have := List.sum_le_card_nsmul l 1 (fun x hx => h x hx)
    simpa using this
  rw [mean, div_le_one hlen]
  exact hsum

/-! ## Claims -/

/-- Claim C1: for every non-empty score list with mean `m`, if `m > 0.5`
the result is a FAKE verdict with confidence `m * 100`, and if `m ≤ 0.5`
the result is a REAL verdict with confidence `(1 - m) * 100`; in
particular the score list `[0.5]` yields REAL with confidence `50`. -/
theorem aggregate_threshold (l : List ℚ) (h : l ≠ []) :
    (1 / 2 < mean l → aggregate l = .verdict .FAKE (mean l * 100)) ∧
    (mean l ≤ 1 / 2 → aggregate l = .verdict .REAL ((1 - mean l) * 100)) ∧
    aggregate [1 / 2] = .verdict .REAL 50 := by
  refine ⟨fun hm => ?_, fun hm => ?_, ?_⟩
  · rw [aggregate, if_neg h, if_pos hm]
  · rw [aggregate, if_neg h, if_neg (not_lt.mpr hm)]
    congr 1
    ring
  · norm_num [aggregate, mean]

theorem aggregate_threshold_witness :
    aggregate [1 / 2] = .verdict .REAL ((1 - mean [1 / 2]) * 100) :=
  (aggregate_threshold [1 / 2] (by simp)).2.1 (by norm_num [mean])

/-- Claim C8: the aggregate decision is a pure function of the multiset of
collected scores — permuting the score list leaves the verdict and the
confidence unchanged. -/
theorem aggregate_perm_invariant (l1 l2 : List ℚ) (h : l1.Perm l2) :
    aggregate l1 = aggregate l2 := by
  have hlen := h.length_eq
  have hmean : mean l1 = mean l2 := by
    rw [mean, mean, h.sum_eq, hlen]
  have hnil : (l1 = []) ↔ (l2 = []) := by
    rw [← List.length_eq_zero, ← List.length_eq_zero, hlen]
  by_cases he : l2 = []
  · rw [aggregate, aggregate, if_pos (hnil.mpr he), if_pos he]
  · rw [aggregate, aggregate, if_neg (fun e => he (hnil.mp e)), if_neg he,
      hmean]

theorem aggregate_perm_invariant_witness :
    aggregate [9 / 10, 1 / 10] = aggregate [1 / 10, 9 / 10] :=
  aggregate_perm_invariant [9 / 10, 1 / 10] [1 / 10, 9 / 10]
    (List.Perm.swap _ _ _)

/-- Claim C9: when every score lies in `[0, 1]`, any verdict produced by
aggregation has confidence at least `50`; a FAKE verdict has confidence
strictly above `50` and a REAL verdict has confidence in `[50, 100]`. -/
theorem verdict_confidence_bounds (l : List ℚ) (lab : Label) (c : ℚ)
    (hbound : ∀ s ∈ l, 0 ≤ s ∧ s ≤ 1)
    (hres : aggregate l = .verdict lab c) :
    50 ≤ c ∧ (lab = .FAKE → 50 < c) ∧ (lab = .REAL → c ≤ 100) := by
  by_cases he : l = []
  · rw [aggregate, if_pos he] at hres
    exact absurd hres (by simp)
  have hm0 : 0 ≤ mean l := mean_nonneg l (fun s hs => (hbound s hs).1)
  have hm1 : mean l ≤ 1 := mean_le_one l he (fun s hs => (hbound s hs).2)
  rw [aggregate, if_neg he] at hres
  by_cases hc : 1 / 2 < mean l
  · rw [if_pos hc] at hres
    cases hres
    exact ⟨by linarith, fun _ => by linarith, fun hlab => absurd hlab (by simp)⟩
  · rw [if_neg hc] at hres
    cases hres
    have hm : mean l ≤ 1 / 2 := not_lt.mp hc
    exact ⟨by linarith, fun hlab => absurd hlab (by simp), fun _ => by linarith⟩

theorem verdict_confidence_bounds_witness :
    50 ≤ (90 : ℚ) ∧ (Label.FAKE = Label.FAKE → (50 : ℚ) < 90) ∧
      (Label.FAKE = Label.REAL → (90 : ℚ) ≤ 100) :=
  verdict_confidence_bounds [9 / 10] .FAKE 90 (by norm_num)
    (by norm_num [aggregate, mean])

/-- Claim C10: on a successfully opened video, a zero or negative frame
cap, or a reported frame count of zero, makes the loop read no frame at
all and the run end in the no-face sentinel. -/
theorem degenerate_cap_no_frames (fmt : ℚ → String) (v : VideoModel)
    (mf : ℤ) (hopen : v.opens = true) (h : mf ≤ 0 ∨ v.frameCount = 0) :
    processedFrames v mf = [] ∧
    predict_on_video fmt v mf = .ok noFaceSentinel := by
  have hz : (framesToProcess v mf).toNat = 0 := by
    unfold framesToProcess
    omega
  have hp : processedFrames v mf = [] := by
    rw [processedFrames, hz, readFrames_eq_take, List.take_zero]
  refine ⟨hp, ?_⟩
  simp [predict_on_video, runAnalysis, predictRun, hopen, collectedScores,
    hp, aggregate, formatResult, Except.map]

theorem degenerate_cap_no_frames_witness :
    processedFrames ⟨true, 0, [noDetectFrame]⟩ 50 = [] ∧
    predict_on_video fmt0 ⟨true, 0, [noDetectFrame]⟩ 50 =
      .ok noFaceSentinel :=
  degenerate_cap_no_frames fmt0 ⟨true, 0, [noDetectFrame]⟩ 50 rfl
    (Or.inr rfl)

/-- Claim C2: the sampling loop reads frames strictly in order from the
first; it processes `min((min maxFrames frameCount), available)` frames in
general — so it stops early, without error, when the source ends before
the cap — and exactly `min(maxFrames, frameCount)` frames when the source
yields all the frames it reports. -/
theorem sampling_loop_spec (fmt : ℚ → String) (v : VideoModel) (mf : ℤ)
    (hopen : v.opens = true) (hmf : 0 ≤ mf) (hfc : 0 ≤ v.frameCount) :
    processedFrames v mf = v.frames.take (min mf v.frameCount).toNat ∧
    (processedFrames v mf).length =
      min (min mf v.frameCount).toNat v.frames.length ∧
    (v.frames.length = v.frameCount.toNat →
      ((processedFrames v mf).length : ℤ) = min mf v.frameCount) ∧
    (∃ s, predict_on_video fmt v mf = .ok s) := by
  have horder : processedFrames v mf =
      v.frames.take (min mf v.frameCount).toNat := by
    rw [processedFrames, readFrames_eq_take, framesToProcess]
  have hlen : (processedFrames v mf).length =
      min (min mf v.frameCount).toNat v.frames.length := by
    rw [horder, List.length_take]
  refine ⟨horder, hlen, fun hall => ?_, ?_⟩
  · rw [hlen, hall]
    omega
  · exact ⟨formatResult fmt (aggregate (collectedScores v mf)),
      by simp [predict_on_video, runAnalysis, predictRun, hopen, Except.map]⟩

theorem sampling_loop_spec_witness :
    ((processedFrames sampleVideo 50).length : ℤ) =
      min 50 sampleVideo.frameCount :=
  (sampling_loop_spec fmt0 sampleVideo 50 rfl (by decide)
    (by decide)).2.2.1 rfl

/-- Claim C4: across every run the handle-release events balance the
handle-open events; on a video that opens, the handle is opened once and
released exactly once, and when the video cannot be opened the run fails
with `cannotOpenVideo` having produced no resource event at all — no
handle is leaked on any exit path. -/
theorem handle_release_balanced (v : VideoModel) (mf : ℤ) :
    (runEvents v mf).count .releasedHandle =
      (runEvents v mf).count .openedHandle ∧
    (v.opens = true →
      (runEvents v mf).count .openedHandle = 1 ∧
      (runEvents v mf).count .releasedHandle = 1) ∧
    (v.opens = false →
      runAnalysis v mf = .error .cannotOpenVideo ∧ runEvents v mf = []) := by
  unfold runEvents runAnalysis predictRun
  cases hop : v.opens
  · simp
  · have hmap : (processedFrames v mf).map (fun _ => Ev.readFrame) =
        List.replicate (processedFrames v mf).length Ev.readFrame := by
      simp [List.map_const']
    simp [hmap, List.count_cons, List.count_append, List.count_replicate,
      List.count_singleton]

theorem handle_release_balanced_witness :
    (runEvents sampleVideo 50).count .openedHandle = 1 ∧
    (runEvents sampleVideo 50).count .releasedHandle = 1 :=
  (handle_release_balanced sampleVideo 50).2.1 rfl

theorem sliceLen_eq_zero (n a b : ℤ) (ha : 0 ≤ a) (hb : 0 ≤ b)
    (hba : b ≤ a) : sliceLen n a b = 0 := by
  rw [sliceLen]
  simp only [if_neg (not_lt.mpr ha), if_neg (not_lt.mpr hb)]
  omega

/-- Claim C6, counterexample: the box `(-10, -10, -5, -5)` on a
`640 × 480` frame clamps to `(0, 0, -5, -5)`, a region the claim calls
zero-area (`x2 ≤ x1`) and discarded; but numpy interprets the negative
stops as `640 - 5` and `480 - 5`, so the slice is a `635 × 475` crop and
the box is classified, contributing a score instead of being silently
dropped. -/
theorem wrapped_negative_stop_cex :
    clampBox 640 480 ⟨-10, -10, -5, -5⟩ = ⟨0, 0, -5, -5⟩ ∧
    (clampBox 640 480 ⟨-10, -10, -5, -5⟩).x2 ≤
      (clampBox 640 480 ⟨-10, -10, -5, -5⟩).x1 ∧
    cropSize 640 480 (clampBox 640 480 ⟨-10, -10, -5, -5⟩) = 635 * 475 ∧
    processBox 640 480 ⟨⟨-10, -10, -5, -5⟩, .ok (9 / 10)⟩ =
      .ok (some (9 / 10)) := by
  refine ⟨rfl, by decide, by decide, ?_⟩
  rfl

/-- Claim C6, amended: crop extraction first clamps the box to
`(max 0 x1, max 0 y1, min w x2, min h y2)`.  When a clamped stop
coordinate is nonnegative and at most the matching start (`0 ≤ x2 ≤ x1`,
or `0 ≤ y2 ≤ y1`), the crop is empty and the box is discarded silently —
no score and no error.  A clamped negative `x2` or `y2`, however, wraps
to `w + x2` or `h + y2` under numpy slicing, so a box outside the left or
top edge can produce a non-empty crop that is classified rather than
discarded.  Box handling itself never fails: with a successful
classifier the outcome is always a silent skip or a score, never an
error. -/
theorem clamp_wrap_behavior (w h : ℤ) (bs : BoxSpec) :
    clampBox w h bs.box =
      ⟨max 0 bs.box.x1, max 0 bs.box.y1, min w bs.box.x2, min h bs.box.y2⟩ ∧
    ((0 ≤ (clampBox w h bs.box).x2 ∧
        (clampBox w h bs.box).x2 ≤ (clampBox w h bs.box).x1) ∨
      (0 ≤ (clampBox w h bs.box).y2 ∧
        (clampBox w h bs.box).y2 ≤ (clampBox w h bs.box).y1) →
      processBox w h bs = .ok none) ∧
    (∀ q, bs.cls = .ok q →
      processBox w h bs = .ok none ∨ processBox w h bs = .ok (some q)) := by
  refine ⟨rfl, fun hdeg => ?_, fun q hq => ?_⟩
  · have hz : cropSize w h (clampBox w h bs.box) = 0 := by
      rcases hdeg with ⟨h0, hle⟩ | ⟨h0, hle⟩
      · have hx : sliceLen w (clampBox w h bs.box).x1
            (clampBox w h bs.box).x2 = 0 :=
          sliceLen_eq_zero w _ _ (le_max_left 0 bs.box.x1) h0 hle
        rw [cropSize, hx, zero_mul]
      · have hy : sliceLen h (clampBox w h bs.box).y1
            (clampBox w h bs.box).y2 = 0 :=
          sliceLen_eq_zero h _ _ (le_max_left 0 bs.box.y1) h0 hle
        rw [cropSize, hy, mul_zero]
    rw [processBox, if_pos hz]
  · rw [processBox]
    by_cases hz : cropSize w h (clampBox w h bs.box) = 0
    · exact Or.inl (by rw [if_pos hz])
    · refine Or.inr ?_
      rw [if_neg hz, hq]
      rfl

theorem clamp_wrap_behavior_witness :
    processBox 640 480 ⟨⟨200, 200, 100, 100⟩, .ok 1⟩ = .ok none :=
  (clamp_wrap_behavior 640 480 ⟨⟨200, 200, 100, 100⟩, .ok 1⟩).2.1
    (Or.inl (by decide))

/-- Claim C7: when the score list collected by the loop is empty, the run
returns the fixed no-face sentinel, and that sentinel differs from every
rendered FAKE or REAL verdict string, whatever the percentage formatter
prints. -/
theorem no_evidence_sentinel (fmt : ℚ → String) (v : VideoModel) (mf : ℤ)
    (hopen : v.opens = true) (hempty : collectedScores v mf = []) :
    predict_on_video fmt v mf = .ok noFaceSentinel ∧
    (∀ lab c, noFaceSentinel ≠ formatResult fmt (.verdict lab c)) := by
  constructor
  · simp [predict_on_video, runAnalysis, predictRun, hopen, hempty,
      aggregate, formatResult, Except.map]
  · intro lab c hcontra
    have hV : (formatResult fmt (.verdict lab c)).data.head? = some 'V' := by
      cases lab <;> rfl
    rw [← hcontra] at hV
    exact absurd hV (by decide)

theorem no_evidence_sentinel_witness :
    predict_on_video fmt0 sampleVideo 50 = .ok noFaceSentinel ∧
    (∀ lab c, noFaceSentinel ≠ formatResult fmt0 (.verdict lab c)) :=
  no_evidence_sentinel fmt0 sampleVideo 50 rfl (by decide)

/-- A frame on which the detection call raises an exception that is
neither a face-detection nor a classification failure. -/
def unexpectedFrame : Frame := ⟨640, 480, .error .unexpected⟩

/-- A one-frame video whose only frame raises an unexpected exception
during per-frame processing. -/
def unexpectedVideo : VideoModel := ⟨true, 1, [unexpectedFrame]⟩

/-- Claim C3, counterexample: a run whose single frame raises an
`unexpected` exception inside the per-frame block terminates with the
no-face sentinel — the `except Exception` handler of lines 147-149
swallows the failure instead of propagating it, and the run is silently
absorbed into the NoEvidence outcome. -/
theorem unexpected_error_swallowed_cex :
    unexpectedVideo.frames = [⟨640, 480, .error .unexpected⟩] ∧
    predict_on_video fmt0 unexpectedVideo 50 = .ok noFaceSentinel := by
  constructor
  · rfl
  · rfl

/-- Claim C3, amended: the only failure the analysis ever propagates is
`cannotOpenVideo`; every exception raised inside the per-frame processing
block — the unexpected ones included — is caught by the per-frame
handler, so a run on an opened video always returns a result string and
may well end in the NoEvidence outcome. -/
theorem only_open_failure_propagates (fmt : ℚ → String) (v : VideoModel)
    (mf : ℤ) :
    (∀ e, predict_on_video fmt v mf = .error e → e = .cannotOpenVideo) ∧
    (v.opens = true → ∃ s, predict_on_video fmt v mf = .ok s) := by
  unfold predict_on_video runAnalysis predictRun
  cases hop : v.opens
  · simp [Except.map]
  · simp [Except.map]

theorem only_open_failure_propagates_witness :
    ∃ s, predict_on_video fmt0 unexpectedVideo 50 = .ok s :=
  (only_open_failure_propagates fmt0 unexpectedVideo 50).2 rfl

/-- A box fully inside a 640 × 480 frame whose crop the classifier fails
on. -/
def failingBoxSpec : BoxSpec := ⟨⟨10, 10, 60, 60⟩, .error .classificationError⟩

/-- A box fully inside a 640 × 480 frame whose crop classifies to score
`9/10`. -/
def goodBoxSpec : BoxSpec := ⟨⟨100, 100, 200, 200⟩, .ok (9 / 10)⟩

/-- A frame where detection returns two boxes, the first of which fails
classification and the second of which would score `9/10`. -/
def twoBoxFrame : Frame := ⟨640, 480, .ok (some [failingBoxSpec, goodBoxSpec])⟩

/-- A one-frame video exhibiting the two-box frame. -/
def twoBoxVideo : VideoModel := ⟨true, 1, [twoBoxFrame]⟩

/-- Claim C5, counterexample: on a frame with two detected boxes where
classifying the first crop fails, the score of the second, perfectly good
crop is never collected — the exception aborts the `for` loop over the
boxes of the frame — so the run ends in the no-face sentinel instead of a
verdict carrying the later score `9/10`. -/
theorem classification_error_skips_rest_of_frame_cex :
    twoBoxFrame.detect = .ok (some [failingBoxSpec, goodBoxSpec]) ∧
    goodBoxSpec.cls = .ok (9 / 10) ∧
    collectedScores twoBoxVideo 50 = [] ∧
    predict_on_video fmt0 twoBoxVideo 50 = .ok noFaceSentinel := by
  refine ⟨rfl, rfl, by decide, ?_⟩
  rfl

/-- Claim C5, amended: a detection failure skips exactly the offending
frame, a classification failure on one crop skips that crop and the
remaining crops of the same frame while keeping the scores already
collected from its earlier crops, and neither failure disturbs other
frames: scores from later frames are still collected and the video is
never aborted. -/
theorem per_frame_error_isolation :
    (∀ (pre post : List Frame) (f : Frame) (e : PyErr), f.detect = .error e →
      (pre ++ f :: post).flatMap frameScores =
        pre.flatMap frameScores ++ post.flatMap frameScores) ∧
    (∀ (w h : ℤ) (bs1 bs2 : List BoxSpec) (b : BoxSpec) (e : PyErr),
      b.cls = .error e → cropSize w h (clampBox w h b.box) ≠ 0 →
      boxesScores w h (bs1 ++ b :: bs2) = boxesScores w h bs1) ∧
    (∀ fs1 fs2 : List Frame,
      (fs1 ++ fs2).flatMap frameScores =
        fs1.flatMap frameScores ++ fs2.flatMap frameScores) := by
  refine ⟨fun pre post f e hf => ?_, fun w h bs1 bs2 b e hb hsz => ?_,
    fun fs1 fs2 => List.flatMap_append fs1 fs2 frameScores⟩
  · have hf0 : frameScores f = [] := by rw [frameScores, hf]
    simp [List.flatMap_append, hf0]
  · induction bs1 with
    | nil =>
      simp only [List.nil_append, boxesScores, processBox, if_neg hsz, hb,
        Except.map]
    | cons a rest ih =>
      simp only [List.cons_append, boxesScores]
      cases hpb : processBox w h a with
      | error e2 => rfl
      | ok o =>
        cases o with
        | none => exact ih
        | some s => exact congrArg (List.cons s) ih

theorem per_frame_error_isolation_witness :
    boxesScores 640 480 ([goodBoxSpec] ++ failingBoxSpec :: [goodBoxSpec]) =
      boxesScores 640 480 [goodBoxSpec] :=
  per_frame_error_isolation.2.1 640 480 [goodBoxSpec] [goodBoxSpec]
    failingBoxSpec .classificationError rfl (by decide)

end Deepfake
